import Mathlib

/-!
Shallow embedding of the live-configuration subsystem of tiny-dfr
(src/src/config.rs): layered TOML merge, theme resolution, layer building
with a synthetic escape key for wide panels, and the inotify-backed
watch state machine that drives hot reloads.

Modelling conventions:
* `f64` RGB triples are modelled as `Rat` triples.  The code only copies
  colour values around (no floating-point arithmetic ever happens), so the
  choice of numeric carrier cannot change any behaviour we prove about.
* `HashMap String ButtonColorOverride` is modelled as an association list
  queried with `List.lookup`; the spec requires unique keys and declares
  order irrelevant, and `HashMap::get` is exactly keyed lookup.
* File reads, TOML parsing of the user file, inotify watch registration and
  inotify event reads are environment effects; they are passed in as
  explicit arguments / oracles.  A Rust `panic!` / `unwrap()` failure is
  modelled by `Option.none` (the process aborts, no value is produced).
* Rust `to_lowercase` is modelled by `strToLower`, characterwise ASCII
  lowercasing; all theme names the code compares against are ASCII, where
  the two agree.
-/

/-- An RGB triple (source type `[f64; 3]`). -/
abbrev RGB := Rat × Rat × Rat

structure ButtonColorOverride where
  button_background_inactive : Option RGB
  button_background_active : Option RGB
  icon_color : Option RGB
  icon_color_active : Option RGB
  text_color : Option RGB
deriving DecidableEq, Repr

structure ColorConfig where
  button_background_inactive : RGB
  button_background_active : RGB
  icon_color : RGB
  icon_color_active : RGB
  text_color : RGB
  button_overrides : Option (List (String × ButtonColorOverride))
deriving DecidableEq, Repr

/-- `impl Default for ColorConfig` (config.rs lines 37-48). -/
def ColorConfig.default : ColorConfig :=
  { button_background_inactive := (0.2, 0.2, 0.2)
    button_background_active := (0.4, 0.4, 0.4)
    icon_color := (1.0, 1.0, 1.0)
    icon_color_active := (1.0, 1.0, 1.0)
    text_color := (1.0, 1.0, 1.0)
    button_overrides := none }

/-- The palette returned for theme name "light" (config.rs lines 53-60). -/
def lightTheme : ColorConfig :=
  { button_background_inactive := (0.9, 0.9, 0.9)
    button_background_active := (0.7, 0.7, 0.7)
    icon_color := (0.1, 0.1, 0.1)
    icon_color_active := (0.0, 0.0, 0.0)
    text_color := (0.1, 0.1, 0.1)
    button_overrides := none }

/-- The palette returned for theme name "colorful" (config.rs lines 61-68). -/
def colorfulTheme : ColorConfig :=
  { button_background_inactive := (0.15, 0.15, 0.15)
    button_background_active := (0.35, 0.35, 0.35)
    icon_color := (1.0, 0.8, 0.6)
    icon_color_active := (1.0, 1.0, 0.8)
    text_color := (1.0, 1.0, 1.0)
    button_overrides := none }

/-- The palette returned for theme name "minimal" (config.rs lines 69-76). -/
def minimalTheme : ColorConfig :=
  { button_background_inactive := (0.1, 0.1, 0.1)
    button_background_active := (0.2, 0.2, 0.2)
    icon_color := (0.9, 0.9, 0.9)
    icon_color_active := (1.0, 1.0, 1.0)
    text_color := (0.9, 0.9, 0.9)
    button_overrides := none }

/-- Modelled from the spec: `str::to_lowercase` of the standard library,
"look it up case-insensitively"; characterwise lowercasing (ASCII, which
covers every name the lookup compares against). -/
def strToLower (s : String) : String := ⟨s.data.map Char.toLower⟩

/-- `ColorConfig::from_theme` (config.rs lines 51-79). -/
def ColorConfig.from_theme (theme : String) : ColorConfig :=
  match strToLower theme with
  | "light" => lightTheme
  | "colorful" => colorfulTheme
  | "minimal" => minimalTheme
  | _ => ColorConfig.default

/-- `ColorConfig::get_button_colors` (config.rs lines 81-110).  The Rust
mutable locals become shadowing `let`s; the `HashMap::get` becomes
`List.lookup`. -/
def ColorConfig.get_button_colors (self : ColorConfig) (button_text : String) :
    RGB × RGB × RGB × RGB × RGB :=
  let bg_inactive := self.button_background_inactive
  let bg_active := self.button_background_active
  let icon_color := self.icon_color
  let icon_color_active := self.icon_color_active
  let text_color := self.text_color
  match self.button_overrides with
  | some overrides =>
    match overrides.lookup button_text with
    | some override_config =>
      let bg_inactive :=
        match override_config.button_background_inactive with
        | some inactive => inactive
        | none => bg_inactive
      let bg_active :=
        match override_config.button_background_active with
        | some active => active
        | none => bg_active
      let icon_color :=
        match override_config.icon_color with
        | some icon => icon
        | none => icon_color
      let icon_color_active :=
        match override_config.icon_color_active with
        | some icon_active => icon_active
        | none => icon_color_active
      let text_color :=
        match override_config.text_color with
        | some text => text
        | none => text_color
      (bg_inactive, bg_active, icon_color, icon_color_active, text_color)
    | none => (bg_inactive, bg_active, icon_color, icon_color_active, text_color)
  | none => (bg_inactive, bg_active, icon_color, icon_color_active, text_color)

structure ColorConfigProxy where
  theme : Option String
  button_background_inactive : Option RGB
  button_background_active : Option RGB
  icon_color : Option RGB
  icon_color_active : Option RGB
  text_color : Option RGB
  button_overrides : Option (List (String × ButtonColorOverride))
deriving DecidableEq, Repr

/-- `#[derive(Default)]` for `ColorConfigProxy`: every field absent. -/
def ColorConfigProxy.default : ColorConfigProxy :=
  { theme := none
    button_background_inactive := none
    button_background_active := none
    icon_color := none
    icon_color_active := none
    text_color := none
    button_overrides := none }

/-- `ColorConfigProxy::to_color_config` (config.rs lines 148-178). -/
def ColorConfigProxy.to_color_config (self : ColorConfigProxy) : ColorConfig :=
  let colors :=
    match self.theme with
    | some theme => ColorConfig.from_theme theme
    | none => ColorConfig.default
  let colors :=
    match self.button_background_inactive with
    | some inactive => { colors with button_background_inactive := inactive }
    | none => colors
  let colors :=
    match self.button_background_active with
    | some active => { colors with button_background_active := active }
    | none => colors
  let colors :=
    match self.icon_color with
    | some icon_color => { colors with icon_color := icon_color }
    | none => colors
  let colors :=
    match self.icon_color_active with
    | some icon_color_active => { colors with icon_color_active := icon_color_active }
    | none => colors
  let colors :=
    match self.text_color with
    | some text_color => { colors with text_color := text_color }
    | none => colors
  let colors :=
    match self.button_overrides with
    | some button_overrides => { colors with button_overrides := some button_overrides }
    | none => colors
  colors

/-- `input_linux::Key`: only `Key::Esc` is mentioned by name in the source;
other key codes are abstracted as numbered keys. -/
inductive Key where
  | esc : Key
  | code (n : Nat) : Key
deriving DecidableEq, Repr

/-- `ButtonConfig` (config.rs lines 180-192). -/
structure ButtonConfig where
  icon : Option String
  text : Option String
  theme : Option String
  time : Option String
  battery : Option String
  locale : Option String
  action : Key
  stretch : Option Nat
deriving DecidableEq, Repr

/-- `ConfigProxy` (config.rs lines 122-134): the merge-input record with every
field optional. -/
structure ConfigProxy where
  media_layer_default : Option Bool
  show_button_outlines : Option Bool
  enable_pixel_shift : Option Bool
  font_template : Option String
  adaptive_brightness : Option Bool
  active_brightness : Option Nat
  primary_layer_keys : Option (List ButtonConfig)
  media_layer_keys : Option (List ButtonConfig)
  colors : Option ColorConfigProxy
deriving DecidableEq, Repr

/-- Modelled from the spec: the font-matching collaborator (`load_font`,
config.rs lines 194-207) turns a font-family name into a loaded font handle
via external fontconfig/freetype calls.  The handle is identified by the
name it was resolved from. -/
structure FontFace where
  name : String
deriving DecidableEq, Repr

/-- `load_font` (config.rs lines 194-207), with the external resolution
modelled as always succeeding and returning the handle for the name. -/
def load_font (name : String) : FontFace := { name := name }

/-- `Config` (config.rs lines 113-120): the fully-resolved snapshot. -/
structure Config where
  show_button_outlines : Bool
  enable_pixel_shift : Bool
  font_face : FontFace
  adaptive_brightness : Bool
  active_brightness : Nat
  colors : ColorConfig
deriving DecidableEq, Repr

/-- Modelled from the spec: `FunctionLayer` (external renderer type, declared
in another module) is "an ordered sequence of ButtonDescriptor, insertion
order = on-screen left-to-right order". -/
structure FunctionLayer where
  keys : List ButtonConfig
deriving DecidableEq, Repr

/-- Modelled from the spec: `FunctionLayer::with_config` builds a layer from
an ordered descriptor list, preserving order. -/
def FunctionLayer.with_config (keys : List ButtonConfig) : FunctionLayer :=
  { keys := keys }

/-- The layer pair `[FunctionLayer; 2]`. -/
abbrev LayerPair := FunctionLayer × FunctionLayer

/-- The field-by-field merge block of `load_config` (config.rs lines
216-226): each field of `base` is replaced by `user.field.or(base.field)`. -/
def mergeUser (base user : ConfigProxy) : ConfigProxy :=
  { media_layer_default := user.media_layer_default.or base.media_layer_default
    show_button_outlines := user.show_button_outlines.or base.show_button_outlines
    enable_pixel_shift := user.enable_pixel_shift.or base.enable_pixel_shift
    font_template := user.font_template.or base.font_template
    adaptive_brightness := user.adaptive_brightness.or base.adaptive_brightness
    media_layer_keys := user.media_layer_keys.or base.media_layer_keys
    primary_layer_keys := user.primary_layer_keys.or base.primary_layer_keys
    active_brightness := user.active_brightness.or base.active_brightness
    colors := user.colors.or base.colors }

/-- Lines 210-226 of `load_config`: the system default must be present and
parsed (`unwrap` twice, modelled by the outer `Option`), then the user
result is merged only when it is `Ok` (`if let Ok(user) = user`). -/
def effectiveProxy (baseSrc : Option ConfigProxy)
    (userSrc : Except String ConfigProxy) : Option ConfigProxy :=
  baseSrc.map fun base =>
    match userSrc with
    | Except.ok user => mergeUser base user
    | Except.error _ => base

/-- The synthetic escape-key descriptor inserted for wide panels
(config.rs lines 233-242). -/
def escButton : ButtonConfig :=
  { icon := none
    text := some "esc"
    theme := none
    time := none
    battery := none
    locale := none
    action := Key.esc
    stretch := none }

/-- Lines 213-215 of `load_config`: reading and parsing the user override
file.  `contents = none` models an unreadable/absent file (the
`read_to_string` error); otherwise the text is handed to the TOML parser. -/
def readUser (contents : Option String)
    (parse : String → Except String ConfigProxy) : Except String ConfigProxy :=
  match contents with
  | some s => parse s
  | none => Except.error "read_to_string failed"

/-- `load_config` (config.rs lines 209-262).  `baseSrc` is the parse result
of the system default file (`none` = missing/unparsable, which the code
`unwrap`s, i.e. aborts); `userSrc` is the read+parse result of the user
override file.  Every `.unwrap()` on a merged field is an `Option` bind. -/
def load_config (width : Nat) (baseSrc : Option ConfigProxy)
    (userSrc : Except String ConfigProxy) : Option (Config × LayerPair) := do
  let base ← effectiveProxy baseSrc userSrc
  let mlk ← base.media_layer_keys
  let plk ← base.primary_layer_keys
  let media_layer_keys := if 2170 ≤ width then escButton :: mlk else mlk
  let primary_layer_keys := if 2170 ≤ width then escButton :: plk else plk
  let media_layer := FunctionLayer.with_config media_layer_keys
  let fkey_layer := FunctionLayer.with_config primary_layer_keys
  let mld ← base.media_layer_default
  let layers : LayerPair :=
    if mld then (media_layer, fkey_layer) else (fkey_layer, media_layer)
  let sbo ← base.show_button_outlines
  let eps ← base.enable_pixel_shift
  let ab ← base.adaptive_brightness
  let ft ← base.font_template
  let abr ← base.active_brightness
  pure
    ({ show_button_outlines := sbo
       enable_pixel_shift := eps
       font_face := load_font ft
       adaptive_brightness := ab
       active_brightness := abr
       colors := (base.colors.getD ColorConfigProxy.default).to_color_config },
     layers)

/-- `ConfigManager` (config.rs lines 264-267): the inotify fd itself is an
environment handle, so the state the code carries is the optional watch
descriptor — `Some` = Armed, `None` = Unarmed. -/
structure ConfigManager where
  watch_desc : Option Nat
deriving DecidableEq, Repr

/-- Outcome of the single `read_events()` call of one `update_config` pass
(config.rs line 300): `eagain` = `Err(EAGAIN)` (would block), `events es` =
`Ok` with the watch descriptors of the returned batch, `fail` = any other
`Err` (which `handle_events` `unwrap`s, aborting). -/
inductive ReadResult where
  | eagain : ReadResult
  | events (es : List Nat) : ReadResult
  | fail : ReadResult
deriving DecidableEq, Repr

/-- The world as one `update_config` call observes it.
`arms k` is the outcome of the k-th `arm_inotify` call of this pass
(`some wd` = watch registered, `none` = `ENOENT`, file absent);
`read` is the outcome of the `read_events()` call;
`baseAt k` / `userAt k` are the parse results of the system-default and
user-override files seen by the k-th `load_config` call of this pass
(the files can change between reloads in one event batch). -/
structure Env where
  arms : Nat → Option Nat
  read : ReadResult
  baseAt : Nat → Option ConfigProxy
  userAt : Nat → Except String ConfigProxy

/-- `arm_inotify` (config.rs lines 269-276): the syscall outcome is supplied
by the environment; `Err(ENOENT)` maps to `none`, success to `some wd`
(other errors `unwrap`-abort and are outside the modelled runs). -/
def arm_inotify (env : Env) (k : Nat) : Option Nat := env.arms k

/-- The `for evt in evts.unwrap()` loop body of `ConfigManager::handle_events`
(config.rs lines 307-317).  `k` counts the matching events consumed so far
(each performs one `load_config` and one `arm_inotify`); `wd` is the current
`self.watch_desc`; `ret` the accumulated return flag.  A matching event
reloads (aborting, i.e. `none`, when `load_config` panics), overwrites the
caller snapshot with the parts of that single reload, sets `ret`, and
re-arms before the next event is examined. -/
def handleEventsLoop (env : Env) (width : Nat) :
    Nat → Option Nat → Config → LayerPair → Bool → List Nat →
    Option (Bool × ConfigManager × Config × LayerPair)
  | _, wd, cfg, layers, ret, [] => some (ret, { watch_desc := wd }, cfg, layers)
  | k, wd, cfg, layers, ret, evt :: rest =>
    if some evt ≠ wd then
      handleEventsLoop env width k wd cfg layers ret rest
    else do
      let parts ← load_config width (env.baseAt k) (env.userAt k)
      handleEventsLoop env width (k + 1) (arm_inotify env k) parts.1 parts.2 true rest

/-- `ConfigManager::handle_events` (config.rs lines 305-319): `evts = none`
models a `Result::Err` other than `EAGAIN`, whose `unwrap()` aborts. -/
def ConfigManager.handle_events (env : Env) (width : Nat) (self : ConfigManager)
    (cfg : Config) (layers : LayerPair) (evts : Option (List Nat)) :
    Option (Bool × ConfigManager × Config × LayerPair) := do
  let es ← evts
  handleEventsLoop env width 0 self.watch_desc cfg layers false es

/-- `ConfigManager::update_config` (config.rs lines 290-304).  The returned
tuple is (reported change flag, new manager state, caller Config, caller
layers); `none` models a panic/abort. -/
def ConfigManager.update_config (env : Env) (self : ConfigManager)
    (cfg : Config) (layers : LayerPair) (width : Nat) :
    Option (Bool × ConfigManager × Config × LayerPair) :=
  match self.watch_desc with
  | none => some (false, { watch_desc := arm_inotify env 0 }, cfg, layers)
  | some _ =>
    match env.read with
    | ReadResult.eagain => some (false, self, cfg, layers)
    | ReadResult.events es => self.handle_events env width cfg layers (some es)
    | ReadResult.fail => self.handle_events env width cfg layers none

/-- Spec predicate for one merged field: the merged value is the user's value
when the user specified the field, and the default's value otherwise.  It
mentions only the one field's user and base values, so a field satisfying it
is resolved independently of every other field's override. -/
def resolvesField {α : Type} (user base merged : Option α) : Prop :=
  (∀ v, user = some v → merged = some v) ∧ (user = none → merged = base)

/-- A sample primary-layer button for concrete witnesses. -/
def btnF1 : ButtonConfig :=
  { icon := none, text := some "F1", theme := none, time := none,
    battery := none, locale := none, action := Key.code 59, stretch := none }

/-- A sample media-layer button for concrete witnesses. -/
def btnPlay : ButtonConfig :=
  { icon := none, text := some "play", theme := none, time := none,
    battery := none, locale := none, action := Key.code 164, stretch := none }

/-- A complete system-default record (every field present), as the packaged
default config guarantees. -/
def sampleBase : ConfigProxy :=
  { media_layer_default := some false
    show_button_outlines := some true
    enable_pixel_shift := some false
    font_template := some "sans"
    adaptive_brightness := some true
    active_brightness := some 50
    primary_layer_keys := some [btnF1]
    media_layer_keys := some [btnPlay]
    colors := some ColorConfigProxy.default }

/-- A sparse user override: only two fields specified. -/
def sampleUser : ConfigProxy :=
  { media_layer_default := some true
    show_button_outlines := none
    enable_pixel_shift := none
    font_template := none
    adaptive_brightness := none
    active_brightness := some 80
    primary_layer_keys := none
    media_layer_keys := none
    colors := none }

/-- A per-button colour override specifying two of the five fields. -/
def sampleOverride : ButtonColorOverride :=
  { button_background_inactive := some (0.5, 0.5, 0.5)
    button_background_active := none
    icon_color := some (0.0, 1.0, 0.0)
    icon_color_active := none
    text_color := none }

/-- A resolved colour config carrying one per-button override entry. -/
def sampleColors : ColorConfig :=
  { ColorConfig.default with button_overrides := some [("esc", sampleOverride)] }

/-- A TOML parser stub that rejects every input, for witnesses about
malformed user files. -/
def parseFail : String → Except String ConfigProxy :=
  fun _ => Except.error "bad"

/-- A sample resolved snapshot held by the caller. -/
def sampleConfig : Config :=
  { show_button_outlines := true
    enable_pixel_shift := false
    font_face := load_font "sans"
    adaptive_brightness := true
    active_brightness := 50
    colors := ColorConfig.default }

/-- A sample layer pair held by the caller. -/
def sampleLayers : LayerPair :=
  (FunctionLayer.with_config [btnF1], FunctionLayer.with_config [btnPlay])

/-- A concrete environment: every arm attempt yields `a`, the event read
yields `r`, and every reload sees the sample base with no readable user
file. -/
def testEnv (a : Option Nat) (r : ReadResult) : Env :=
  { arms := fun _ => a
    read := r
    baseAt := fun _ => some sampleBase
    userAt := fun _ => Except.error "missing" }

theorem or_resolves {α : Type} (u b : Option α) : resolvesField u b (u.or b) := by
  refine ⟨fun v h => ?_, fun h => ?_⟩ <;> simp [h, Option.or]

/-- C1: for every parsed system-default record and user-override record, the
merged record has, for each of the nine fields, the user's value when the
user specified that field and otherwise the default's value; the button
lists and the colour section are whole `Option` values, so a specified user
value replaces them wholesale, and each field's resolution reads only that
field of the two inputs, independent of every other field's override. -/
theorem merge_field_granular_C1 (base user : ConfigProxy) :
    resolvesField user.media_layer_default base.media_layer_default
      (mergeUser base user).media_layer_default ∧
    resolvesField user.show_button_outlines base.show_button_outlines
      (mergeUser base user).show_button_outlines ∧
    resolvesField user.enable_pixel_shift base.enable_pixel_shift
      (mergeUser base user).enable_pixel_shift ∧
    resolvesField user.font_template base.font_template
      (mergeUser base user).font_template ∧
    resolvesField user.adaptive_brightness base.adaptive_brightness
      (mergeUser base user).adaptive_brightness ∧
    resolvesField user.active_brightness base.active_brightness
      (mergeUser base user).active_brightness ∧
    resolvesField user.primary_layer_keys base.primary_layer_keys
      (mergeUser base user).primary_layer_keys ∧
    resolvesField user.media_layer_keys base.media_layer_keys
      (mergeUser base user).media_layer_keys ∧
    resolvesField user.colors base.colors (mergeUser base user).colors :=
  ⟨or_resolves _ _, or_resolves _ _, or_resolves _ _, or_resolves _ _,
   or_resolves _ _, or_resolves _ _, or_resolves _ _, or_resolves _ _,
   or_resolves _ _⟩

/-- Witness for C1 at a concrete default and a sparse override: specified
fields (media-layer-default, active-brightness) take the user's values, an
omitted field (show-button-outlines) keeps the default's. -/
theorem merge_field_granular_C1_witness :
    (mergeUser sampleBase sampleUser).media_layer_default = some true ∧
    (mergeUser sampleBase sampleUser).active_brightness = some 80 ∧
    (mergeUser sampleBase sampleUser).show_button_outlines = some true := by
  refine ⟨(merge_field_granular_C1 sampleBase sampleUser).1.1 true rfl,
    (merge_field_granular_C1 sampleBase sampleUser).2.2.2.2.2.1.1 80 rfl, ?_⟩
  have h := (merge_field_granular_C1 sampleBase sampleUser).2.1.2 rfl
  rw [h]
  rfl

/-- C3: an unreadable user-override file and an unparsable one take the same
`Err` branch of `load_config`, so for every display width the resolved
snapshot equals the one produced with no user-override file at all; the
merge is skipped and no error reaches the caller. -/
theorem malformed_user_C3 (width : Nat) (bs : Option ConfigProxy)
    (parse : String → Except String ConfigProxy) (s msg : String)
    (h : parse s = Except.error msg) :
    load_config width bs (readUser (some s) parse) =
      load_config width bs (readUser none parse) := by
  simp [readUser, load_config, effectiveProxy, h]

/-- Witness for C3: a parser rejecting every input yields, at width 1800
over the sample default, the same snapshot as an absent user file. -/
theorem malformed_user_C3_witness :
    parseFail "junk" = Except.error "bad" ∧
    load_config 1800 (some sampleBase) (readUser (some "junk") parseFail) =
      load_config 1800 (some sampleBase) (readUser none parseFail) :=
  ⟨rfl, malformed_user_C3 1800 (some sampleBase) parseFail "junk" "bad" rfl⟩

theorem from_theme_eq_ite (s : String) :
    ColorConfig.from_theme s =
      if strToLower s = "light" then lightTheme
      else if strToLower s = "colorful" then colorfulTheme
      else if strToLower s = "minimal" then minimalTheme
      else ColorConfig.default := by
  unfold ColorConfig.from_theme
  split
  · simp_all
  · simp_all
  · simp_all
  · rename_i h1 h2 h3
    rw [if_neg h1, if_neg h2, if_neg h3]

/-- C4: theme resolution is total and case-insensitive: every string maps to
exactly one of the four fixed palettes — light, colorful or minimal when the
lowercased input equals that name, the built-in default otherwise (so also
for "dark" and unknown names) — and two strings with equal lowercasings
resolve identically; being a total function, the lookup never fails. -/
theorem from_theme_total_C4 (s t : String) :
    (strToLower s = "light" → ColorConfig.from_theme s = lightTheme) ∧
    (strToLower s = "colorful" → ColorConfig.from_theme s = colorfulTheme) ∧
    (strToLower s = "minimal" → ColorConfig.from_theme s = minimalTheme) ∧
    (strToLower s ≠ "light" → strToLower s ≠ "colorful" → strToLower s ≠ "minimal" →
      ColorConfig.from_theme s = ColorConfig.default) ∧
    (strToLower s = strToLower t → ColorConfig.from_theme s = ColorConfig.from_theme t) ∧
    (ColorConfig.from_theme s = lightTheme ∨
      ColorConfig.from_theme s = colorfulTheme ∨
      ColorConfig.from_theme s = minimalTheme ∨
      ColorConfig.from_theme s = ColorConfig.default) := by
  refine ⟨fun h => ?_, fun h => ?_, fun h => ?_, fun h1 h2 h3 => ?_, fun h => ?_, ?_⟩
  · rw [from_theme_eq_ite, if_pos h]
  · rw [from_theme_eq_ite, if_neg (by simp [h]), if_pos h]
  · rw [from_theme_eq_ite, if_neg (by simp [h]), if_neg (by simp [h]), if_pos h]
  · rw [from_theme_eq_ite, if_neg h1, if_neg h2, if_neg h3]
  · rw [from_theme_eq_ite, from_theme_eq_ite, h]
  · rw [from_theme_eq_ite]
    by_cases h1 : strToLower s = "light"
    · simp [h1]
    by_cases h2 : strToLower s = "colorful"
    · simp [h1, h2]
    by_cases h3 : strToLower s = "minimal"
    · simp [h1, h2, h3]
    · simp [h1, h2, h3]

/-- Witness for C4: mixed-case "LiGhT" resolves to the light palette,
"DARK" falls back to the built-in default, and "MINIMAL" resolves the same
as "minimal". -/
theorem from_theme_total_C4_witness :
    ColorConfig.from_theme "LiGhT" = lightTheme ∧
    ColorConfig.from_theme "DARK" = ColorConfig.default ∧
    ColorConfig.from_theme "MINIMAL" = ColorConfig.from_theme "minimal" :=
  ⟨(from_theme_total_C4 "LiGhT" "x").1 (by decide),
   (from_theme_total_C4 "DARK" "x").2.2.2.1 (by decide) (by decide) (by decide),
   (from_theme_total_C4 "MINIMAL" "minimal").2.2.2.2.1 (by decide)⟩

/-- C7: `get_button_colors` returns the five palette entries, with exactly
the fields an override entry for the identifier specifies replaced and all
unspecified fields kept; an identifier with no entry yields the palette
unchanged.  The function is a pure Lean function of its two arguments, so
it is side-effect-free and two calls with the same identifier and unchanged
overrides are literally the same value. -/
theorem get_button_colors_C7 (cc : ColorConfig) (s : String) :
    (cc.button_overrides.bind (fun m => m.lookup s) = none →
      cc.get_button_colors s =
        (cc.button_background_inactive, cc.button_background_active,
         cc.icon_color, cc.icon_color_active, cc.text_color)) ∧
    (∀ ov, cc.button_overrides.bind (fun m => m.lookup s) = some ov →
      cc.get_button_colors s =
        (ov.button_background_inactive.getD cc.button_background_inactive,
         ov.button_background_active.getD cc.button_background_active,
         ov.icon_color.getD cc.icon_color,
         ov.icon_color_active.getD cc.icon_color_active,
         ov.text_color.getD cc.text_color)) ∧
    cc.get_button_colors s = cc.get_button_colors s := by
  refine ⟨fun h => ?_, fun ov h => ?_, rfl⟩
  · rcases hbo : cc.button_overrides with _ | m
    · simp [ColorConfig.get_button_colors, hbo]
    · have hl : m.lookup s = none := by simpa [hbo] using h
      simp [ColorConfig.get_button_colors, hbo, hl]
  · obtain ⟨m, hbo, hl⟩ : ∃ m, cc.button_overrides = some m ∧ m.lookup s = some ov := by
      rcases hbo : cc.button_overrides with _ | m
      · simp [hbo] at h
      · exact ⟨m, rfl, by simpa [hbo] using h⟩
    obtain ⟨f1, f2, f3, f4, f5⟩ := ov
    cases f1 <;> cases f2 <;> cases f3 <;> cases f4 <;> cases f5 <;>
      simp [ColorConfig.get_button_colors, hbo, hl, Option.getD]

/-- Witness for C7 on a palette with one override entry: the entry for "esc"
replaces exactly its two specified fields, and an identifier without an
entry gets the unmodified palette. -/
theorem get_button_colors_C7_witness :
    sampleColors.get_button_colors "esc" =
      ((0.5, 0.5, 0.5), (0.4, 0.4, 0.4), (0.0, 1.0, 0.0), (1.0, 1.0, 1.0),
       (1.0, 1.0, 1.0)) ∧
    sampleColors.get_button_colors "F1" =
      ((0.2, 0.2, 0.2), (0.4, 0.4, 0.4), (1.0, 1.0, 1.0), (1.0, 1.0, 1.0),
       (1.0, 1.0, 1.0)) := by
  constructor
  · have h := (get_button_colors_C7 sampleColors "esc").2.1 sampleOverride (by rfl)
    rw [h]
    rfl
  · have h := (get_button_colors_C7 sampleColors "F1").1 (by rfl)
    rw [h]
    rfl

theorem load_config_char (width : Nat) (bs : Option ConfigProxy)
    (us : Except String ConfigProxy) (m : ConfigProxy)
    (mk pk : List ButtonConfig) (b sbo eps ab : Bool) (ft : String) (abr : Nat)
    (hm : effectiveProxy bs us = some m)
    (h1 : m.media_layer_keys = some mk) (h2 : m.primary_layer_keys = some pk)
    (h3 : m.media_layer_default = some b) (h4 : m.show_button_outlines = some sbo)
    (h5 : m.enable_pixel_shift = some eps) (h6 : m.adaptive_brightness = some ab)
    (h7 : m.font_template = some ft) (h8 : m.active_brightness = some abr) :
    load_config width bs us =
      some ({ show_button_outlines := sbo
              enable_pixel_shift := eps
              font_face := load_font ft
              adaptive_brightness := ab
              active_brightness := abr
              colors := (m.colors.getD ColorConfigProxy.default).to_color_config },
            if b then
              (FunctionLayer.with_config (if 2170 ≤ width then escButton :: mk else mk),
               FunctionLayer.with_config (if 2170 ≤ width then escButton :: pk else pk))
            else
              (FunctionLayer.with_config (if 2170 ≤ width then escButton :: pk else pk),
               FunctionLayer.with_config (if 2170 ≤ width then escButton :: mk else mk))) := by
  cases b <;> by_cases hw : 2170 ≤ width <;>
    simp [load_config, hm, h1, h2, h3, h4, h5, h6, h7, h8, hw]

/-- C5: for every pair of button-descriptor lists in the merged record, when
the display width is at least 2170 both the media and the primary layer are
built with the synthetic escape descriptor prepended and the original
descriptors following in order; at width 2169 or less both lists pass
through unchanged — the boundary 2170 is inclusive. -/
theorem esc_key_threshold_C5 (width : Nat) (bs : Option ConfigProxy)
    (us : Except String ConfigProxy) (m : ConfigProxy)
    (mk pk : List ButtonConfig) (b sbo eps ab : Bool) (ft : String) (abr : Nat)
    (hm : effectiveProxy bs us = some m)
    (h1 : m.media_layer_keys = some mk) (h2 : m.primary_layer_keys = some pk)
    (h3 : m.media_layer_default = some b) (h4 : m.show_button_outlines = some sbo)
    (h5 : m.enable_pixel_shift = some eps) (h6 : m.adaptive_brightness = some ab)
    (h7 : m.font_template = some ft) (h8 : m.active_brightness = some abr) :
    ∃ cfg l0 l1,
      load_config width bs us = some (cfg, (l0, l1)) ∧
      (2170 ≤ width →
        (if b then l0 else l1).keys = escButton :: mk ∧
        (if b then l1 else l0).keys = escButton :: pk) ∧
      (width ≤ 2169 →
        (if b then l0 else l1).keys = mk ∧
        (if b then l1 else l0).keys = pk) := by
  have h := load_config_char width bs us m mk pk b sbo eps ab ft abr hm h1 h2 h3 h4 h5 h6 h7 h8
  by_cases hw : 2170 ≤ width <;> cases b <;> simp [hw] at h <;>
    exact ⟨_, _, _, h,
      fun hx => by first
        | exact ⟨rfl, rfl⟩
        | omega,
      fun hx => by first
        | exact ⟨rfl, rfl⟩
        | omega⟩

/-- Witness for C5 at the inclusive boundary width 2170 over the sample
default: both layers begin with the synthetic escape descriptor. -/
theorem esc_key_threshold_C5_witness :
    ∃ cfg l0 l1,
      load_config 2170 (some sampleBase) (Except.error "missing") =
        some (cfg, (l0, l1)) ∧
      (2170 ≤ 2170 →
        (if false then l0 else l1).keys = escButton :: [btnPlay] ∧
        (if false then l1 else l0).keys = escButton :: [btnF1]) ∧
      (2170 ≤ 2169 →
        (if false then l0 else l1).keys = [btnPlay] ∧
        (if false then l1 else l0).keys = [btnF1]) :=
  esc_key_threshold_C5 2170 (some sampleBase) (Except.error "missing")
    sampleBase [btnPlay] [btnF1] false true false true "sans" 50
    rfl rfl rfl rfl rfl rfl rfl rfl rfl

/-- C6: the returned two-element layer pair is ordered by the resolved
media-layer-default boolean: [media, primary] when it is true and
[primary, media] when it is false. -/
theorem layer_order_C6 (width : Nat) (bs : Option ConfigProxy)
    (us : Except String ConfigProxy) (m : ConfigProxy)
    (mk pk : List ButtonConfig) (b sbo eps ab : Bool) (ft : String) (abr : Nat)
    (hm : effectiveProxy bs us = some m)
    (h1 : m.media_layer_keys = some mk) (h2 : m.primary_layer_keys = some pk)
    (h3 : m.media_layer_default = some b) (h4 : m.show_button_outlines = some sbo)
    (h5 : m.enable_pixel_shift = some eps) (h6 : m.adaptive_brightness = some ab)
    (h7 : m.font_template = some ft) (h8 : m.active_brightness = some abr) :
    (b = true →
      load_config width bs us =
        some ({ show_button_outlines := sbo
                enable_pixel_shift := eps
                font_face := load_font ft
                adaptive_brightness := ab
                active_brightness := abr
                colors := (m.colors.getD ColorConfigProxy.default).to_color_config },
              (FunctionLayer.with_config (if 2170 ≤ width then escButton :: mk else mk),
               FunctionLayer.with_config (if 2170 ≤ width then escButton :: pk else pk)))) ∧
    (b = false →
      load_config width bs us =
        some ({ show_button_outlines := sbo
                enable_pixel_shift := eps
                font_face := load_font ft
                adaptive_brightness := ab
                active_brightness := abr
                colors := (m.colors.getD ColorConfigProxy.default).to_color_config },
              (FunctionLayer.with_config (if 2170 ≤ width then escButton :: pk else pk),
               FunctionLayer.with_config (if 2170 ≤ width then escButton :: mk else mk)))) := by
  have h := load_config_char width bs us m mk pk b sbo eps ab ft abr hm h1 h2 h3 h4 h5 h6 h7 h8
  constructor <;> intro hb <;> subst hb <;> simpa using h

/-- Witness for C6 over the sample default (media-layer-default = false) at
width 1800: the pair is [primary, media]. -/
theorem layer_order_C6_witness :
    load_config 1800 (some sampleBase) (Except.error "missing") =
      some ({ show_button_outlines := true
              enable_pixel_shift := false
              font_face := load_font "sans"
              adaptive_brightness := true
              active_brightness := 50
              colors := (sampleBase.colors.getD ColorConfigProxy.default).to_color_config },
            (FunctionLayer.with_config (if 2170 ≤ 1800 then escButton :: [btnF1] else [btnF1]),
             FunctionLayer.with_config (if 2170 ≤ 1800 then escButton :: [btnPlay] else [btnPlay]))) :=
  (layer_order_C6 1800 (some sampleBase) (Except.error "missing")
    sampleBase [btnPlay] [btnF1] false true false true "sans" 50
    rfl rfl rfl rfl rfl rfl rfl rfl rfl).2 rfl

theorem handleEventsLoop_skip_all (env : Env) (width d : Nat) (cfg : Config)
    (layers : LayerPair) :
    ∀ (es : List Nat) (k : Nat) (ret : Bool), (∀ x ∈ es, x ≠ d) →
      handleEventsLoop env width k (some d) cfg layers ret es =
        some (ret, { watch_desc := some d }, cfg, layers) := by
  intro es
  induction es with
  | nil => intro k ret _; rfl
  | cons e rest ih =>
    intro k ret h
    have he : e ≠ d := h e (List.mem_cons_self _ _)
    simp only [handleEventsLoop]
    rw [if_pos (by simpa using he)]
    exact ih k ret fun x hx => h x (List.mem_cons_of_mem _ hx)

theorem handleEventsLoop_ret_true (env : Env) (width : Nat) :
    ∀ (es : List Nat) (k : Nat) (wd : Option Nat) (c : Config) (l : LayerPair)
      (r : Bool × ConfigManager × Config × LayerPair),
      handleEventsLoop env width k wd c l true es = some r → r.1 = true := by
  intro es
  induction es with
  | nil => intro k wd c l r h; cases h; rfl
  | cons e rest ih =>
    intro k wd c l r h
    simp only [handleEventsLoop] at h
    split at h
    · exact ih _ _ _ _ _ h
    · rcases hl : load_config width (env.baseAt k) (env.userAt k) with _ | parts <;>
        rw [hl] at h
      · exact Option.noConfusion h
      · exact ih _ _ _ _ _ h

theorem handleEventsLoop_snapshot (env : Env) (width : Nat) :
    ∀ (es : List Nat) (k : Nat) (wd : Option Nat) (c : Config) (l : LayerPair)
      (ret : Bool) (r : Bool × ConfigManager × Config × LayerPair),
      handleEventsLoop env width k wd c l ret es = some r →
      (r.2.2.1 = c ∧ r.2.2.2 = l) ∨
      ∃ j parts, load_config width (env.baseAt j) (env.userAt j) = some parts ∧
        r.2.2.1 = parts.1 ∧ r.2.2.2 = parts.2 := by
  intro es
  induction es with
  | nil => intro k wd c l ret r h; cases h; exact Or.inl ⟨rfl, rfl⟩
  | cons e rest ih =>
    intro k wd c l ret r h
    simp only [handleEventsLoop] at h
    split at h
    · exact ih _ _ _ _ _ _ h
    · rcases hl : load_config width (env.baseAt k) (env.userAt k) with _ | parts <;>
        rw [hl] at h
      · exact Option.noConfusion h
      · rcases ih _ _ _ _ _ _ h with hc | hc
        · exact Or.inr ⟨k, parts, hl, hc.1, hc.2⟩
        · exact Or.inr hc

/-- C2: in the Armed state (descriptor d), processing an event batch: a
batch whose identifiers all differ from d causes no reload, no re-arm and
reports unchanged; a batch headed by a matching event performs the reload
(aborting if it fails), continues with the caller snapshot replaced by that
reload's parts and the watch re-armed (Armed again, or Unarmed when the
file vanished) in the same step, with the change flag set; and once set the
flag is reported by every completed call. -/
theorem handle_events_armed_C2 (env : Env) (width d : Nat) (cfg : Config)
    (layers : LayerPair) (e : Nat) (rest es : List Nat) :
    ((∀ x ∈ es, x ≠ d) →
      handleEventsLoop env width 0 (some d) cfg layers false es =
        some (false, { watch_desc := some d }, cfg, layers)) ∧
    (e = d →
      handleEventsLoop env width 0 (some d) cfg layers false (e :: rest) =
        (load_config width (env.baseAt 0) (env.userAt 0)).bind fun parts =>
          handleEventsLoop env width 1 (arm_inotify env 0) parts.1 parts.2 true rest) ∧
    (∀ (k : Nat) (wd : Option Nat) (c : Config) (l : LayerPair) (rest2 : List Nat)
      (r : Bool × ConfigManager × Config × LayerPair),
      handleEventsLoop env width k wd c l true rest2 = some r → r.1 = true) := by
  refine ⟨fun h => handleEventsLoop_skip_all env width d cfg layers es 0 false h,
    fun he => ?_,
    fun k wd c l rest2 r h => handleEventsLoop_ret_true env width rest2 k wd c l r h⟩
  subst he
  simp only [handleEventsLoop]
  rw [if_neg (by simp)]
  rfl

/-- Witness for C2: a batch with the lone non-matching identifier 3 against
armed descriptor 7 is a no-op reporting unchanged, and a batch with the
matching identifier 7 reduces to reload-then-rearm-then-continue. -/
theorem handle_events_armed_C2_witness :
    handleEventsLoop (testEnv (some 10) (ReadResult.events [3])) 1800 0 (some 7)
        sampleConfig sampleLayers false [3] =
      some (false, { watch_desc := some 7 }, sampleConfig, sampleLayers) ∧
    handleEventsLoop (testEnv (some 10) (ReadResult.events [7])) 1800 0 (some 7)
        sampleConfig sampleLayers false [7] =
      (load_config 1800 ((testEnv (some 10) (ReadResult.events [7])).baseAt 0)
          ((testEnv (some 10) (ReadResult.events [7])).userAt 0)).bind fun parts =>
        handleEventsLoop (testEnv (some 10) (ReadResult.events [7])) 1800 1
          (arm_inotify (testEnv (some 10) (ReadResult.events [7])) 0)
          parts.1 parts.2 true [] :=
  ⟨(handle_events_armed_C2 (testEnv (some 10) (ReadResult.events [3])) 1800 7
      sampleConfig sampleLayers 0 [] [3]).1 (by decide),
   (handle_events_armed_C2 (testEnv (some 10) (ReadResult.events [7])) 1800 7
      sampleConfig sampleLayers 7 [] [7]).2.1 rfl⟩

/-- C8: the two quiescent cases of `update_config` surface no error: called
Unarmed it attempts re-registration and, when the file is absent (arm
yields none), reports unchanged and stays Unarmed; called Armed with the
non-blocking read reporting would-block it reports unchanged and leaves the
manager state and the caller's Config and layers untouched. -/
theorem quiescent_no_error_C8 (env : Env) (st : ConfigManager) (cfg : Config)
    (layers : LayerPair) (width : Nat) :
    (st.watch_desc = none → arm_inotify env 0 = none →
      ConfigManager.update_config env st cfg layers width =
        some (false, { watch_desc := none }, cfg, layers)) ∧
    (∀ d, st.watch_desc = some d → env.read = ReadResult.eagain →
      ConfigManager.update_config env st cfg layers width =
        some (false, st, cfg, layers)) := by
  obtain ⟨wd⟩ := st
  constructor
  · intro h1 h2
    cases h1
    simp [ConfigManager.update_config, h2]
  · intro d h1 h2
    cases h1
    simp [ConfigManager.update_config, h2]

/-- Witness for C8: with the file absent an Unarmed manager stays Unarmed
reporting unchanged, and an Armed manager reading would-block is untouched
reporting unchanged. -/
theorem quiescent_no_error_C8_witness :
    ConfigManager.update_config (testEnv none ReadResult.eagain)
        { watch_desc := none } sampleConfig sampleLayers 1800 =
      some (false, { watch_desc := none }, sampleConfig, sampleLayers) ∧
    ConfigManager.update_config (testEnv none ReadResult.eagain)
        { watch_desc := some 7 } sampleConfig sampleLayers 1800 =
      some (false, { watch_desc := some 7 }, sampleConfig, sampleLayers) :=
  ⟨(quiescent_no_error_C8 (testEnv none ReadResult.eagain) { watch_desc := none }
      sampleConfig sampleLayers 1800).1 rfl rfl,
   (quiescent_no_error_C8 (testEnv none ReadResult.eagain) { watch_desc := some 7 }
      sampleConfig sampleLayers 1800).2 7 rfl rfl⟩

/-- C9: reloading is atomic with respect to failure: whenever
`handle_events` completes, the caller's Config and layer pair are either
both exactly the previously held values or both the components of one
single fully-constructed `load_config` result; a failing reload aborts
(no completed value exists), so no partially-updated snapshot is ever
observable. -/
theorem reload_atomic_C9 (env : Env) (width : Nat) (st : ConfigManager)
    (cfg : Config) (layers : LayerPair) (evts : Option (List Nat))
    (r : Bool × ConfigManager × Config × LayerPair)
    (h : ConfigManager.handle_events env width st cfg layers evts = some r) :
    (r.2.2.1 = cfg ∧ r.2.2.2 = layers) ∨
    ∃ j parts, load_config width (env.baseAt j) (env.userAt j) = some parts ∧
      r.2.2.1 = parts.1 ∧ r.2.2.2 = parts.2 := by
  rcases evts with _ | es
  · exact Option.noConfusion h
  · exact handleEventsLoop_snapshot env width es 0 st.watch_desc cfg layers false r h

/-- Witness for C9 on a completed batch with one non-matching event: the
resulting snapshot is exactly the previously held one. -/
theorem reload_atomic_C9_witness :
    (((false, { watch_desc := some 7 }, sampleConfig, sampleLayers) :
        Bool × ConfigManager × Config × LayerPair).2.2.1 = sampleConfig ∧
      ((false, { watch_desc := some 7 }, sampleConfig, sampleLayers) :
        Bool × ConfigManager × Config × LayerPair).2.2.2 = sampleLayers) ∨
    ∃ j parts,
      load_config 1800 ((testEnv none ReadResult.eagain).baseAt j)
          ((testEnv none ReadResult.eagain).userAt j) = some parts ∧
      ((false, { watch_desc := some 7 }, sampleConfig, sampleLayers) :
        Bool × ConfigManager × Config × LayerPair).2.2.1 = parts.1 ∧
      ((false, { watch_desc := some 7 }, sampleConfig, sampleLayers) :
        Bool × ConfigManager × Config × LayerPair).2.2.2 = parts.2 :=
  reload_atomic_C9 (testEnv none ReadResult.eagain) 1800 { watch_desc := some 7 }
    sampleConfig sampleLayers (some [3])
    (false, { watch_desc := some 7 }, sampleConfig, sampleLayers) rfl

/-- C10: an `update_config` call starting Unarmed always reports unchanged
with the caller snapshot untouched and the new state set to the arm
attempt's outcome — even when re-registration succeeds — and its result is
independent of the event-read and reload oracles, i.e. no event read and no
reload is performed; a changed result can only come from a call that began
Armed. -/
theorem unarmed_no_reload_C10 (env env2 : Env) (st : ConfigManager)
    (cfg : Config) (layers : LayerPair) (width : Nat)
    (h : st.watch_desc = none) :
    ConfigManager.update_config env st cfg layers width =
      some (false, { watch_desc := arm_inotify env 0 }, cfg, layers) ∧
    (arm_inotify env 0 = arm_inotify env2 0 →
      ConfigManager.update_config env st cfg layers width =
        ConfigManager.update_config env2 st cfg layers width) := by
  obtain ⟨wd⟩ := st
  cases h
  constructor
  · rfl
  · intro h2
    simp only [arm_inotify] at h2
    simp [ConfigManager.update_config, arm_inotify, h2]

/-- Witness for C10: Unarmed start with the file now present (arm succeeds
with descriptor 5): still reports unchanged, and two environments differing
only in their read oracle produce identical results. -/
theorem unarmed_no_reload_C10_witness :
    ConfigManager.update_config (testEnv (some 5) ReadResult.eagain)
        { watch_desc := none } sampleConfig sampleLayers 1800 =
      some (false,
        { watch_desc := arm_inotify (testEnv (some 5) ReadResult.eagain) 0 },
        sampleConfig, sampleLayers) ∧
    ConfigManager.update_config (testEnv (some 5) ReadResult.eagain)
        { watch_desc := none } sampleConfig sampleLayers 1800 =
      ConfigManager.update_config (testEnv (some 5) (ReadResult.events [7]))
        { watch_desc := none } sampleConfig sampleLayers 1800 :=
  have h := unarmed_no_reload_C10 (testEnv (some 5) ReadResult.eagain)
    (testEnv (some 5) (ReadResult.events [7])) { watch_desc := none }
    sampleConfig sampleLayers 1800 rfl
  ⟨h.1, h.2 rfl⟩
